import Mathlib

/-!
Shallow embedding of the session-vote aggregator of `src/bot.py`
(class `SessionVoteView` and its button handlers), together with proofs
about the properties claimed for it.

Modelling conventions:
- Discord user ids (Python `int`) are `Nat`.
- The Python set `self.voters : set[int]` is carried as a duplicate-free
  `List Nat` in insertion order; membership, insertion (`set.add` of an
  absent element appends) and removal (`set.remove`) preserve the set
  semantics exactly.  Iteration order of the Python set is modelled
  separately by `pySetIter` (see its doc comment).
- The two nested `try`/`except` blocks around the prompt deletion
  (bot.py lines 160-169) are modelled by two Boolean oracles saying
  whether each deletion attempt succeeds; the block swallows every
  exception, so the model is a total function into `DeleteOutcome`.
- `await` points do not matter for the sequential semantics
  (`vote_button`); for the interleaving analysis the handler is split at
  its first `await` into `addSeg1` (bot.py lines 149-151) and `addRest`
  (bot.py lines 156-206), exactly following the statement order of the
  source.
-/

namespace Bot

/-- Button label, bot.py lines 135, 144, 151, 204: the f-string
`"Vote (<count>)"`. -/
def voteLabel (n : Nat) : String := "Vote (" ++ toString n ++ ")"

/-- Outcome of the best-effort deletion of the original vote prompt,
bot.py lines 160-169.  There is no exception constructor: every failure
path of the source is caught by an `except` clause, the last one merely
logging. -/
inductive DeleteOutcome where
  /-- `interaction.message.delete()` succeeded (line 162). -/
  | deleted : DeleteOutcome
  /-- primary delete raised; `defer` + `delete_original_response`
  succeeded (lines 166-167). -/
  | deletedFallback : DeleteOutcome
  /-- both attempts raised; `logger.exception(...)` ran (line 169) and
  the handler continued. -/
  | loggedFailure : DeleteOutcome
deriving DecidableEq, Repr

/-- The two-step deletion of bot.py lines 160-169: try the primary
delete; on failure try the fallback path; on failure of both, log and
continue.  `d1` / `d2` say whether the first / second attempt succeeds. -/
def deleteStep (d1 d2 : Bool) : DeleteOutcome :=
  if d1 then .deleted else if d2 then .deletedFallback else .loggedFailure

/-- Iteration order of the Python set `self.voters` (bot.py lines 200
and 213 iterate the set to build mention strings).  CPython's `set` of
`int` keys hashes each key to itself; in the regime exercised here
(distinct nonnegative ids smaller than the hash-table size, hence no
collisions) every key sits in the slot equal to its value and iteration
scans slots in ascending index order, so iteration yields the keys in
ascending numeric order — not in insertion order. -/
def pySetIter (xs : List Nat) : List Nat :=
  xs.insertionSort (· ≤ ·)

/-- The mention string built from a voter iteration, bot.py lines 200
and 213: `" ".join(f"<@\x7buid\x7d>" for uid in self.voters)`. -/
def mentionString (l : List Nat) : String :=
  String.intercalate " " (l.map (fun uid => "<@" ++ toString uid ++ ">"))

/-- State of one `SessionVoteView` instance, bot.py lines 129-135.
`voters` is the Python set (see module conventions), `vote_threshold`
and `starter` the constructor arguments, `vote_label` the label of the
Vote button. -/
structure SessionVoteView where
  voters : List Nat
  vote_threshold : Int
  starter : Option Nat
  vote_label : String
deriving DecidableEq, Repr

/-- `SessionVoteView.__init__`, bot.py lines 130-135: stores an empty
voter set, the caller-supplied threshold and starter, and sets the label
to `"Vote (0)"`.  Note there is no validation of the threshold. -/
def mkSessionVoteView (threshold : Int) (starter : Option Nat) : SessionVoteView :=
  { voters := [], vote_threshold := threshold, starter := starter,
    vote_label := voteLabel 0 }

/-- What one `vote_button` invocation produces for its caller, bot.py
lines 138-206: a vote-removed acknowledgement, a vote-counted
acknowledgement, or the session-start flow (with the mention list built
from the set iteration and the outcome of the prompt deletion). -/
inductive VoteResult where
  /-- Removal branch, lines 141-147: resulting count and the ephemeral
  acknowledgement string of line 146. -/
  | removed (count : Nat) (ack : String) : VoteResult
  /-- Below-threshold add, lines 205-206: resulting count, remaining
  votes, and the acknowledgement string of line 206. -/
  | updated (count : Nat) (remaining : Int) (ack : String) : VoteResult
  /-- Threshold crossed, lines 157-204: the mentioned voters of line 200
  (in set-iteration order) and the outcome of the prompt deletion. -/
  | started (finalVoters : List Nat) (deleteOutcome : DeleteOutcome) : VoteResult
deriving DecidableEq, Repr

/-- Whether a result is the session-start transition. -/
def VoteResult.isStarted : VoteResult → Bool
  | .started _ _ => true
  | _ => false

/-- `SessionVoteView.vote_button`, bot.py lines 138-206, as one
sequential step: toggle the clicking user, update the label, and either
acknowledge the removal (lines 141-147), run the session-start flow
(lines 157-204: delete prompt best-effort, send announcement, mention
`self.voters`, then clear the set and reset the label), or acknowledge
the added vote (lines 205-206).  `d1`, `d2` are the deletion oracles. -/
def vote_button (s : SessionVoteView) (user_id : Nat) (d1 d2 : Bool) :
    SessionVoteView × VoteResult :=
  if user_id ∈ s.voters then
    let voters' := s.voters.erase user_id
    let vote_count := voters'.length
    ({ s with voters := voters', vote_label := voteLabel vote_count },
      .removed vote_count
        ("Vote removed! (" ++ toString vote_count ++ "/" ++
          toString s.vote_threshold ++ ")"))
  else
    let voters' := s.voters ++ [user_id]
    let vote_count := voters'.length
    let remaining : Int := s.vote_threshold - (vote_count : Int)
    if remaining ≤ 0 then
      ({ s with voters := [], vote_label := voteLabel 0 },
        .started (pySetIter voters') (deleteStep d1 d2))
    else
      ({ s with voters := voters', vote_label := voteLabel vote_count },
        .updated vote_count remaining
          ("Vote counted! **" ++ toString remaining ++
            "** more votes needed to start the session."))

/-- `SessionVoteView.view_voters_button`, bot.py lines 208-214: a pure
query — it sends either the no-voters notice or the current voter list
and leaves the view state untouched. -/
def view_voters_button (s : SessionVoteView) : SessionVoteView × String :=
  if s.voters.isEmpty then
    (s, "No one has voted yet!")
  else
    (s, "**Current Voters (" ++ toString s.voters.length ++ "/" ++
      toString s.vote_threshold ++ "):**\n" ++ mentionString (pySetIter s.voters))

/-- Sequential execution of a list of vote-button clicks on one view
(deletion oracles fixed to success), returning the final state and the
per-click results in order. -/
def runToggles : SessionVoteView → List Nat → SessionVoteView × List VoteResult
  | s, [] => (s, [])
  | s, u :: us =>
    let p := vote_button s u true true
    let q := runToggles p.1 us
    (q.1, p.2 :: q.2)

/-- First atomic segment of an add-toggle, bot.py lines 149-151: the
statements before the `await interaction.response.edit_message` of line
154.  It mutates the shared voter set and captures the local
`vote_count`.  Returns (shared voters after the segment, captured
count). -/
def addSeg1 (voters : List Nat) (u : Nat) : List Nat × Nat :=
  let v := voters ++ [u]
  (v, v.length)

/-- Remainder of an add-toggle after the first `await`, bot.py lines
156-206: compute `remaining` from the captured `vote_count` (line 156),
and either run the start flow — whose mention list of line 200 reads the
live shared voter set, and which then clears it (lines 202-203) — or
acknowledge the vote.  Takes the live shared voters at resumption time
and the count captured before the `await`. -/
def addRest (threshold : Int) (voters : List Nat) (captured : Nat) (d1 d2 : Bool) :
    List Nat × VoteResult :=
  let remaining : Int := threshold - (captured : Int)
  if remaining ≤ 0 then
    ([], .started (pySetIter voters) (deleteStep d1 d2))
  else
    (voters, .updated captured remaining
      ("Vote counted! **" ++ toString remaining ++
        "** more votes needed to start the session."))

/-- Cooperative interleaving of two add-toggles by users `a` then `b` on
the same view: both handlers run their pre-`await` segment before either
resumes past the `await` of bot.py line 154 (a schedule the event loop
permits, since line 154 suspends).  Returns the final shared voters and
the two handlers' results. -/
def interleaveTwoAdds (threshold : Int) (voters : List Nat) (a b : Nat)
    : List Nat × VoteResult × VoteResult :=
  let p1 := addSeg1 voters a
  let p2 := addSeg1 p1.1 b
  let ra := addRest threshold p2.1 p1.2 true true
  let rb := addRest threshold ra.1 p2.2 true true
  (rb.1, ra.2, rb.2)

/-- Sanity link between the segmented add-path model and the sequential
semantics: run without interference (the live voters at resumption are
the ones the segment produced), the two segments compose to exactly what
`vote_button` does for a user not yet in the set. -/
theorem vote_button_segments (s : SessionVoteView) (u : Nat) (d1 d2 : Bool)
    (h : u ∉ s.voters) :
    ((vote_button s u d1 d2).1.voters, (vote_button s u d1 d2).2) =
      addRest s.vote_threshold (addSeg1 s.voters u).1 (addSeg1 s.voters u).2 d1 d2 := by
  simp only [vote_button, addSeg1, addRest, if_neg h]
  split <;> simp_all

end Bot

/-- C1: the claim says `SessionStarted` is produced by exactly one toggle
per session and never again.  In the code it is produced again: with
threshold 2 and distinct users 1, 2, 3, 4 toggling in order, the second
toggle starts the session (count reaches 2), the voter set is cleared,
and the fourth toggle starts the *same* session a second time — the
handler has no concluded state, contradicting the claim (and the
source's own intent, line 202: "reset voters after start to avoid
re-triggering"). -/
theorem C1_started_twice :
    (Bot.runToggles (Bot.mkSessionVoteView 2 none) [1, 2, 3, 4]).2.map
        Bot.VoteResult.isStarted = [false, true, false, true] := by
  decide

/-- C2: the claim says a toggle after `SessionStarted` is rejected as an
expired session with no mutation.  In the code, after users 1..8 start a
threshold-8 session, a click by the new user 9 is *not* rejected: it
returns a fresh `VoteUpdated` acknowledgement with count 1 and mutates
the voter set to `[9]`. -/
theorem C2_no_expiry_rejection :
    (Bot.runToggles (Bot.mkSessionVoteView 8 none) [1, 2, 3, 4, 5, 6, 7, 8, 9]).2[8]? =
        some (.updated 1 7
          "Vote counted! **7** more votes needed to start the session.") ∧
      (Bot.runToggles (Bot.mkSessionVoteView 8 none)
        [1, 2, 3, 4, 5, 6, 7, 8, 9]).1.voters = [9] := by
  constructor <;> decide

/-- C4: the claim says the voter-set mutation and the threshold decision
happen atomically before any suspension.  In the code the decision (line
156) runs after the `await` of line 154, so two add-toggles may both
mutate before either decides: with threshold 2 and prior voter 1, users
2 and 3 interleaving at that `await` each see a captured count `≥ 2` and
*both* emit `SessionStarted` (the first even mentioning the late joiner
3), whereas the same two toggles run sequentially emit exactly one. -/
theorem C4_decision_after_await :
    (Bot.interleaveTwoAdds 2 [1] 2 3).2.1.isStarted = true ∧
      (Bot.interleaveTwoAdds 2 [1] 2 3).2.2.isStarted = true ∧
      ((Bot.runToggles ⟨[1], 2, none, Bot.voteLabel 1⟩ [2, 3]).2.filter
        Bot.VoteResult.isStarted).length = 1 := by
  refine ⟨by decide, by decide, by decide⟩

/-- C5, counterexample: the claim says constructing with threshold ≤ 0
aborts session creation.  `__init__` performs no validation: threshold 0
yields an ordinary empty view, and the session even operates — the very
first toggle immediately emits `SessionStarted`. -/
theorem C5_no_validation_counterexample :
    (Bot.mkSessionVoteView 0 none).voters = [] ∧
      (Bot.mkSessionVoteView 0 none).vote_label = "Vote (0)" ∧
      (Bot.vote_button (Bot.mkSessionVoteView 0 none) 1 true true).2.isStarted
        = true := by
  refine ⟨rfl, rfl, by decide⟩

/-- C5, amended: construction succeeds for *every* threshold (including
≤ 0), storing the threshold and starter unchanged, with an empty voter
set and the label "Vote (0)"; no configuration error exists. -/
theorem C5_construction_total (threshold : Int) (st : Option Nat) :
    (Bot.mkSessionVoteView threshold st).voters = [] ∧
      (Bot.mkSessionVoteView threshold st).vote_threshold = threshold ∧
      (Bot.mkSessionVoteView threshold st).starter = st ∧
      (Bot.mkSessionVoteView threshold st).vote_label = "Vote (0)" := by
  exact ⟨rfl, rfl, rfl, rfl⟩

/-- C3, counterexample: the claim says `finalVoters` is in insertion
order.  With threshold 2 and user 2 toggling before user 1, the
insertion order is `[2, 1]`, but the crossing call mentions the voters
in the Python set's iteration order `[1, 2]`. -/
theorem C3_not_insertion_order :
    (Bot.runToggles (Bot.mkSessionVoteView 2 none) [2, 1]).2[1]? =
        some (.started [1, 2] .deleted) ∧
      ([1, 2] : List Nat) ≠ [2, 1] := by
  constructor <;> decide

/-- C10, counterexample: the claim says a toggle by user `u` never
changes the membership of any other user `v`.  A crossing toggle does:
with threshold 2 and voter 1 present, user 2's toggle starts the session
and clears the whole set, removing user 1's membership. -/
theorem C10_toggle_clears_others :
    (1 : Nat) ∈ (⟨[1], 2, some 7, Bot.voteLabel 1⟩ : Bot.SessionVoteView).voters ∧
      (1 : Nat) ∉ (Bot.vote_button ⟨[1], 2, some 7, Bot.voteLabel 1⟩
        2 true true).1.voters := by
  constructor <;> decide

namespace Bot

/-- C6: a toggle by a user already in the voter set takes the removal
branch: it returns the vote-removed acknowledgement with the strictly
decreased count and can never be `SessionStarted`. -/
theorem C6_remove_never_starts (s : SessionVoteView) (u : Nat) (d1 d2 : Bool)
    (h : u ∈ s.voters) :
    (vote_button s u d1 d2).2 =
        .removed (s.voters.length - 1)
          ("Vote removed! (" ++ toString (s.voters.length - 1) ++ "/" ++
            toString s.vote_threshold ++ ")") ∧
      (vote_button s u d1 d2).2.isStarted = false ∧
      (vote_button s u d1 d2).1.voters.length < s.voters.length := by
  have hlen : (s.voters.erase u).length = s.voters.length - 1 :=
    List.length_erase_of_mem h
  have hpos : 0 < s.voters.length := List.length_pos.mpr (List.ne_nil_of_mem h)
  simp only [vote_button, if_pos h]
  refine ⟨by rw [hlen], rfl, ?_⟩
  rw [hlen]
  omega

/-- C3 (amended): whenever a toggle emits `SessionStarted`, the toggle
was an add by a user not yet in the set, and the mentioned `finalVoters`
are exactly the members at the crossing (the previous voters plus the
crossing user), listed in the set-iteration order — ascending by id for
the small-id regime — which is deterministic but not insertion order. -/
theorem C3_started_mentions (s : SessionVoteView) (u : Nat) (d1 d2 : Bool)
    (fv : List Nat) (o : DeleteOutcome)
    (h : (vote_button s u d1 d2).2 = .started fv o) :
    fv.Perm (s.voters ++ [u]) ∧ fv.Sorted (· ≤ ·) ∧ u ∉ s.voters := by
  by_cases hm : u ∈ s.voters
  · simp [vote_button, hm] at h
  · by_cases hr : s.vote_threshold - (((s.voters ++ [u]).length : Nat) : Int) ≤ 0
    · simp only [vote_button, if_neg hm, if_pos hr] at h
      have hfv : fv = pySetIter (s.voters ++ [u]) := by
        cases h
        rfl
      subst hfv
      exact ⟨List.perm_insertionSort _ _, List.sorted_insertionSort _ _, hm⟩
    · simp only [vote_button, if_neg hm, if_neg hr] at h
      cases h

end Bot

namespace Bot

/-- C9: the vote-state outcome of a toggle is independent of whether the
prompt deletions succeed (a failed delete never mutates or rolls back
the voter state), and the deletion itself is the total two-step
fallback: primary success deletes (without consulting the fallback),
primary failure falls back, double failure is logged and execution
continues — no exception escapes. -/
theorem C9_delete_best_effort (s : SessionVoteView) (u : Nat)
    (d1 d2 d1' d2' : Bool) :
    (vote_button s u d1 d2).1 = (vote_button s u d1' d2').1 ∧
      deleteStep true d2 = .deleted ∧
      deleteStep false true = .deletedFallback ∧
      deleteStep false false = .loggedFailure := by
  refine ⟨?_, rfl, rfl, rfl⟩
  by_cases hm : u ∈ s.voters
  · simp [vote_button, hm]
  · by_cases hr : s.vote_threshold ≤ (s.voters.length : Int) + 1 <;>
      simp [vote_button, hm, hr]

/-- C7: while the session keeps collecting (neither toggle triggers the
start), toggling the same user twice in a row restores the original
voter membership (the voter set is a permutation of the original). -/
theorem C7_double_toggle (s : SessionVoteView) (u : Nat) (d1 d2 d3 d4 : Bool)
    (hnd : s.voters.Nodup)
    (h1 : (vote_button s u d1 d2).2.isStarted = false)
    (h2 : (vote_button (vote_button s u d1 d2).1 u d3 d4).2.isStarted = false) :
    (vote_button (vote_button s u d1 d2).1 u d3 d4).1.voters.Perm s.voters := by
  by_cases hm : u ∈ s.voters
  · have hstate : (vote_button s u d1 d2).1 =
        { s with voters := s.voters.erase u,
                 vote_label := voteLabel (s.voters.erase u).length } := by
      simp [vote_button, hm]
    rw [hstate] at h2 ⊢
    have hu1 : u ∉ s.voters.erase u := hnd.not_mem_erase
    by_cases hr : s.vote_threshold ≤ ((s.voters.erase u).length : Int) + 1
    · exfalso
      simp [vote_button, hu1, hr, VoteResult.isStarted] at h2
    · have hv2 : (vote_button
          { s with voters := s.voters.erase u,
                   vote_label := voteLabel (s.voters.erase u).length } u d3 d4).1.voters =
          s.voters.erase u ++ [u] := by
        simp [vote_button, hu1, hr]
      rw [hv2]
      exact (List.perm_append_singleton u _).trans (List.perm_cons_erase hm).symm
  · by_cases hr : s.vote_threshold ≤ (s.voters.length : Int) + 1
    · exfalso
      simp [vote_button, hm, hr, VoteResult.isStarted] at h1
    · have hstate : (vote_button s u d1 d2).1 =
          { s with voters := s.voters ++ [u],
                   vote_label := voteLabel (s.voters.length + 1) } := by
        simp [vote_button, hm, hr]
      rw [hstate]
      have hu1 : u ∈ s.voters ++ [u] := by simp
      have hv2 : (vote_button
          { s with voters := s.voters ++ [u],
                   vote_label := voteLabel (s.voters.length + 1) } u d3 d4).1.voters =
          (s.voters ++ [u]).erase u := by
        simp [vote_button, hu1]
      rw [hv2, List.erase_append_right _ hm, List.erase_cons_head]
      simp

/-- C8: an add-toggle whose resulting count stays below the threshold
returns `VoteUpdated` with the new count and `remaining = threshold -
count`, updates the label to "Vote (count)", and acknowledges with the
vote-counted (not vote-removed) string. -/
theorem C8_below_threshold_update (s : SessionVoteView) (u : Nat) (d1 d2 : Bool)
    (hm : u ∉ s.voters)
    (hlt : (s.voters.length : Int) + 1 < s.vote_threshold) :
    vote_button s u d1 d2 =
      ({ s with voters := s.voters ++ [u],
                vote_label := voteLabel (s.voters.length + 1) },
        .updated (s.voters.length + 1) (s.vote_threshold - ((s.voters.length : Int) + 1))
          ("Vote counted! **" ++ toString (s.vote_threshold - ((s.voters.length : Int) + 1)) ++
            "** more votes needed to start the session.")) := by
  have hr : ¬ (s.vote_threshold ≤ (s.voters.length : Int) + 1) := by omega
  simp [vote_button, hm, hr]

/-- C10 (amended): a toggle never changes the threshold or the recorded
starter, the view-voters query never changes any state, and a toggle
that does not trigger the session start leaves every other user's
membership unchanged (a start-triggering toggle clears the whole set). -/
theorem C10_frame (s : SessionVoteView) (u v : Nat) (d1 d2 : Bool)
    (hv : v ≠ u) :
    ((vote_button s u d1 d2).2.isStarted = false →
        (v ∈ (vote_button s u d1 d2).1.voters ↔ v ∈ s.voters)) ∧
      (vote_button s u d1 d2).1.vote_threshold = s.vote_threshold ∧
      (vote_button s u d1 d2).1.starter = s.starter ∧
      (view_voters_button s).1 = s := by
  have hview : (view_voters_button s).1 = s := by
    simp only [view_voters_button]
    split <;> rfl
  by_cases hm : u ∈ s.voters
  · simpa [vote_button, hm, List.mem_erase_of_ne hv] using hview
  · by_cases hr : s.vote_threshold ≤ (s.voters.length : Int) + 1
    · simpa [vote_button, hm, hr, VoteResult.isStarted] using hview
    · simpa [vote_button, hm, hr, hv] using hview

end Bot

/-- Witness for C6: user 5 is in the one-element voter set of a
threshold-3 view; the toggle removes them and is not a start. -/
theorem C6_witness :
    (5 : Nat) ∈ (⟨[5], 3, none, Bot.voteLabel 1⟩ : Bot.SessionVoteView).voters ∧
      (Bot.vote_button ⟨[5], 3, none, Bot.voteLabel 1⟩ 5 true true).2.isStarted = false :=
  ⟨by decide,
    (Bot.C6_remove_never_starts ⟨[5], 3, none, Bot.voteLabel 1⟩ 5 true true (by decide)).2.1⟩

/-- Witness for C3 (amended): toggling user 2 into the threshold-3 view
holding voters 3 and 1 crosses the threshold; the mention list is the
sorted [1, 2, 3], a permutation of the members at the crossing. -/
theorem C3_witness :
    (Bot.vote_button ⟨[3, 1], 3, none, Bot.voteLabel 2⟩ 2 true true).2 =
        .started [1, 2, 3] .deleted ∧
      ([1, 2, 3] : List Nat).Perm ([3, 1] ++ [2]) ∧
      ([1, 2, 3] : List Nat).Sorted (· ≤ ·) ∧
      (2 : Nat) ∉ ([3, 1] : List Nat) :=
  ⟨by decide,
    Bot.C3_started_mentions ⟨[3, 1], 3, none, Bot.voteLabel 2⟩ 2 true true
      [1, 2, 3] .deleted (by decide)⟩

/-- Witness for C7: on a threshold-8 view with voters 1 and 2, toggling
user 2 twice (remove then add) keeps the session collecting and restores
the membership. -/
theorem C7_witness :
    ([1, 2] : List Nat).Nodup ∧
      (Bot.vote_button ⟨[1, 2], 8, none, Bot.voteLabel 2⟩ 2 true true).2.isStarted = false ∧
      (Bot.vote_button (Bot.vote_button ⟨[1, 2], 8, none, Bot.voteLabel 2⟩ 2 true true).1
        2 true true).2.isStarted = false ∧
      (Bot.vote_button (Bot.vote_button ⟨[1, 2], 8, none, Bot.voteLabel 2⟩ 2 true true).1
        2 true true).1.voters.Perm [1, 2] :=
  ⟨by decide, by decide, by decide,
    Bot.C7_double_toggle ⟨[1, 2], 8, none, Bot.voteLabel 2⟩ 2 true true true true
      (by decide) (by decide) (by decide)⟩

/-- Witness for C8: the seventh distinct user toggling on a threshold-8
view with voters 1..6 gets `VoteUpdated` with count 7, remaining 1 and
the updated label. -/
theorem C8_witness :
    (7 : Nat) ∉ ([1, 2, 3, 4, 5, 6] : List Nat) ∧
      (([1, 2, 3, 4, 5, 6] : List Nat).length : Int) + 1 < 8 ∧
      Bot.vote_button ⟨[1, 2, 3, 4, 5, 6], 8, none, Bot.voteLabel 6⟩ 7 true true =
        (⟨[1, 2, 3, 4, 5, 6, 7], 8, none, Bot.voteLabel 7⟩,
          .updated 7 1
            "Vote counted! **1** more votes needed to start the session.") :=
  ⟨by decide, by decide, by
    have h := Bot.C8_below_threshold_update ⟨[1, 2, 3, 4, 5, 6], 8, none, Bot.voteLabel 6⟩
      7 true true (by decide) (by decide)
    exact h.trans (by decide)⟩

/-- Witness for C10 (amended): on a threshold-8 view with voter 1, a
non-starting toggle by user 2 leaves user 1's membership, the threshold
and the starter unchanged, and view-voters mutates nothing. -/
theorem C10_witness :
    (1 : Nat) ≠ (2 : Nat) ∧
      (((Bot.vote_button ⟨[1], 8, some 7, Bot.voteLabel 1⟩ 2 true true).2.isStarted = false →
        ((1 : Nat) ∈ (Bot.vote_button ⟨[1], 8, some 7, Bot.voteLabel 1⟩ 2 true true).1.voters ↔
          (1 : Nat) ∈ (⟨[1], 8, some 7, Bot.voteLabel 1⟩ : Bot.SessionVoteView).voters)) ∧
      (Bot.vote_button ⟨[1], 8, some 7, Bot.voteLabel 1⟩ 2 true true).1.vote_threshold = 8 ∧
      (Bot.vote_button ⟨[1], 8, some 7, Bot.voteLabel 1⟩ 2 true true).1.starter = some 7 ∧
      (Bot.view_voters_button ⟨[1], 8, some 7, Bot.voteLabel 1⟩).1 =
        ⟨[1], 8, some 7, Bot.voteLabel 1⟩) :=
  ⟨by decide, Bot.C10_frame ⟨[1], 8, some 7, Bot.voteLabel 1⟩ 2 1 true true (by decide)⟩
